import Mathlib

/-!
Verification of the Bexio MCP server (mcp_server_bexio) against its
natural-language specification.

The development shallowly embeds the two Python source files:
  * `bexio_client.py` — the REST client: the `_request` error translation,
    the `_filter_by_criteria` client-side filter, the tiered search
    cascade of `search_invoices` / `search_quotes` / `search_timesheets`,
    the single-tier search methods of the remaining resource kinds, and
    `update_contact`'s merge-with-existing behaviour;
  * `server.py` — the dispatcher's 422 error-enhancement gate in
    `call_tool`.

Python JSON-ish values are modelled by the inductive `PyVal`; Python
dictionaries by association lists with first-occurrence lookup (Python
dict keys are unique, so this is faithful); Python exceptions by
`Except PyErr`; the remote HTTP endpoint by oracles (`HttpOutcome`,
`Remote`).  The repository's `field_validator.py` is not among the
provided sources; the definitions whose doc comments start with
"Modelled from the spec" reconstruct the relevant parts of it from the
specification text.
-/

/-- A Python JSON-ish value: None, bool, int, str, list or dict.
Numbers in every payload relevant here are integers, so a float
constructor is not needed. -/
inductive PyVal where
  | none
  | bool (b : Bool)
  | int (n : Int)
  | str (s : String)
  | list (items : List PyVal)
  | dict (entries : List (String × PyVal))

/-- Python `d.get(k)`: value of the first entry with key `k`,
`None` when the key is absent.  (Python dict keys are unique; the
association list realises the dict with first-occurrence lookup.) -/
def dictGet (es : List (String × PyVal)) (k : String) : PyVal :=
  match es with
  | [] => PyVal.none
  | (k', v) :: rest => if k' = k then v else dictGet rest k

/-- Python `k in d`: key-presence test (independent of the value's
truthiness, so a key set to a falsy value still counts as present). -/
def hasKey (es : List (String × PyVal)) (k : String) : Bool :=
  match es with
  | [] => false
  | (k', _) :: rest => k' = k || hasKey rest k

/-- Python truthiness of a value (`bool(v)`). -/
def pyTruthy : PyVal → Bool
  | PyVal.none => false
  | PyVal.bool b => b
  | PyVal.int n => n != 0
  | PyVal.str s => s != ""
  | PyVal.list items => !items.isEmpty
  | PyVal.dict es => !es.isEmpty

mutual
/-- Python `repr(v)` (strings quoted; enough of CPython's repr for the
values that occur in this codebase). -/
def pyRepr : PyVal → String
  | PyVal.none => "None"
  | PyVal.bool true => "True"
  | PyVal.bool false => "False"
  | PyVal.int n => toString n
  | PyVal.str s => "'" ++ s ++ "'"
  | PyVal.list items => "[" ++ pyReprItems items ++ "]"
  | PyVal.dict es => "\x7b" ++ pyReprEntries es ++ "\x7d"

/-- Comma-separated reprs of list items. -/
def pyReprItems : List PyVal → String
  | [] => ""
  | [v] => pyRepr v
  | v :: rest => pyRepr v ++ ", " ++ pyReprItems rest

/-- Comma-separated reprs of dict entries. -/
def pyReprEntries : List (String × PyVal) → String
  | [] => ""
  | [(k, v)] => "'" ++ k ++ "': " ++ pyRepr v
  | (k, v) :: rest => "'" ++ k ++ "': " ++ pyRepr v ++ ", " ++ pyReprEntries rest
end

/-- Python `str(v)`: like repr, except that a string is rendered
without quotes. -/
def pyStr : PyVal → String
  | PyVal.str s => s
  | v => pyRepr v

/-- Python `s.lower()` (ASCII case folding, which is all the code
relies on). -/
def lowerStr (s : String) : String := String.mk (s.data.map Char.toLower)

/-- Helper for `splitDot`: accumulates the current segment (reversed). -/
def splitDotAux : List Char → List Char → List String
  | [], acc => [String.mk acc.reverse]
  | c :: rest, acc =>
      if c = '.' then String.mk acc.reverse :: splitDotAux rest []
      else splitDotAux rest (c :: acc)

/-- Python `s.split('.')`: `"" ↦ [""]`, `"a.b" ↦ ["a","b"]`,
`"a." ↦ ["a",""]`. -/
def splitDot (s : String) : List String := splitDotAux s.data []

/-- Boolean prefix test on character lists. -/
def isPrefixB : List Char → List Char → Bool
  | [], _ => true
  | _ :: _, [] => false
  | a :: as, b :: bs => a = b && isPrefixB as bs

/-- Boolean contiguous-substring test on character lists. -/
def isInfixB (needle hay : List Char) : Bool :=
  match hay with
  | [] => needle.isEmpty
  | _ :: rest => isPrefixB needle hay || isInfixB needle rest

/-- Python `needle in hay` for strings: substring containment. -/
def containsStr (hay needle : String) : Bool := isInfixB needle.data hay.data

/-- A Python exception as observed by the callers in this codebase:
either a `ValueError` (the only exception `_request` raises) or any
other exception type (`AttributeError`, `TypeError`, ...), each with
its `str(e)` message. -/
inductive PyErr where
  | valueError (msg : String)
  | otherError (msg : String)
deriving DecidableEq

/-- Dotted-path resolution used by `_filter_by_criteria`
(bexio_client.py lines 104-110): starting from the record, for each
path segment take `actual.get(part)` when the current value is a dict,
and `None` (stopping) otherwise. -/
def getPath (v : PyVal) (path : List String) : PyVal :=
  match path with
  | [] => v
  | p :: rest =>
    match v with
    | PyVal.dict es => getPath (dictGet es p) rest
    | _ => PyVal.none

/-- One condition's check against a record with the operator already
resolved (bexio_client.py lines 102-121): a falsy `field` makes the
record fail; a truthy non-string `field` would raise at
`field.split('.')`; otherwise the dotted path is resolved and the
operator dispatched, unknown operators failing closed.  `.ok b` means
the loop iteration decides the record matches-so-far (`true`) or
returns `False` (`false`). -/
def evalOp (item : PyVal) (field value : PyVal) (op : String) : Except PyErr Bool :=
  if pyTruthy field = false then Except.ok false
  else
    match field with
    | PyVal.str f =>
        let actual := getPath item (splitDot f)
        if op = "=" then Except.ok (pyStr actual == pyStr value)
        else if op = "like" then
          match value with
          | PyVal.none => Except.ok false
          | v => Except.ok (containsStr (lowerStr (pyStr actual)) (lowerStr (pyStr v)))
        else Except.ok false
    | _ => Except.error (PyErr.otherError "AttributeError: split")

/-- One condition of `_filter_by_criteria` (bexio_client.py lines
99-121): field/value/criteria are read with `.get`; the operator is
`(cond.get("criteria") or "=").lower()`, which raises at `.lower()`
when the criteria value is truthy but not a string. -/
def evalCond (item : PyVal) (cond : List (String × PyVal)) : Except PyErr Bool :=
  let field := dictGet cond "field"
  let value := dictGet cond "value"
  let opVal := if pyTruthy (dictGet cond "criteria") then dictGet cond "criteria"
               else PyVal.str "="
  match opVal with
  | PyVal.str s => evalOp item field value (lowerStr s)
  | _ => Except.error (PyErr.otherError "AttributeError: lower")

/-- The `matches` closure of `_filter_by_criteria` (bexio_client.py
lines 97-122): conditions are checked in order, the first failing
condition returns `False`, and a record matches when every condition
is satisfied (logical AND). -/
def matchesConds (item : PyVal) (conds : List (List (String × PyVal))) : Except PyErr Bool :=
  match conds with
  | [] => Except.ok true
  | c :: rest =>
    match evalCond item c with
    | Except.error e => Except.error e
    | Except.ok false => Except.ok false
    | Except.ok true => matchesConds item rest

/-- The list comprehension of `_filter_by_criteria` (bexio_client.py
line 124): keep the items for which `matches` is true, preserving
order; an exception from `matches` propagates. -/
def filterByCriteria (items : List PyVal) (conds : List (List (String × PyVal))) :
    Except PyErr (List PyVal) :=
  match items with
  | [] => Except.ok []
  | it :: rest =>
    match matchesConds it conds with
    | Except.error e => Except.error e
    | Except.ok b =>
      match filterByCriteria rest conds with
      | Except.error e => Except.error e
      | Except.ok tl => Except.ok (if b then it :: tl else tl)

/-- Outcome of one HTTP request as seen inside `_request`
(bexio_client.py lines 60-86): a 2xx response with parseable JSON
body, a 2xx response whose body fails JSON decoding (`response.json()`
raises with message `decodeErrMsg`), a non-2xx response
(`raise_for_status` raises `httpx.HTTPStatusError`; `text` is the raw
response text, `body` its JSON parse when possible), or any other
exception during the request (network/transport fault) with message
`msg`. -/
inductive HttpOutcome where
  | okJson (body : PyVal)
  | okBadJson (decodeErrMsg : String)
  | statusError (status : Nat) (text : String) (body : Option PyVal)
  | fault (msg : String)

/-- The sub-expression `error_data.get("message") or
error_data.get("error") or error_data.get("detail")` of `_request`
(bexio_client.py line 74): first truthy of the three, else the last. -/
def pickedMessage (es : List (String × PyVal)) : PyVal :=
  let m1 := dictGet es "message"
  let m2 := if pyTruthy m1 then m1 else dictGet es "error"
  if pyTruthy m2 then m2 else dictGet es "detail"

/-- The `error_detail` string built for an `httpx.HTTPStatusError`
(bexio_client.py lines 70-83): start from `"HTTP <status>"`; when the
response body parses to a dict, append the picked message when truthy
and, when truthy, the `errors` array; any failure inside that block
(unparseable body, or `.get` on a non-dict raising `AttributeError`)
falls back to appending the raw response text. -/
def errorDetail (status : Nat) (text : String) (body : Option PyVal) : String :=
  let base := "HTTP " ++ toString status
  match body with
  | Option.some (PyVal.dict es) =>
      let message := pickedMessage es
      let d1 := if pyTruthy message then base ++ ": " ++ pyStr message else base
      let fieldErrors := dictGet es "errors"
      if pyTruthy fieldErrors then d1 ++ " | errors: " ++ pyStr fieldErrors else d1
  | Option.some _ => base ++ ": " ++ text
  | Option.none => base ++ ": " ++ text

/-- The result of `BexioClient._request` (bexio_client.py lines
47-86): a successful response's JSON, or a `ValueError` whose message
is `"Bexio API error - <detail>"` for a non-2xx status and
`"Request failed: <str(e)>"` for every other exception. -/
def requestResult (o : HttpOutcome) : Except PyErr PyVal :=
  match o with
  | HttpOutcome.okJson b => Except.ok b
  | HttpOutcome.okBadJson m => Except.error (PyErr.valueError ("Request failed: " ++ m))
  | HttpOutcome.statusError s t b =>
      Except.error (PyErr.valueError ("Bexio API error - " ++ errorDetail s t b))
  | HttpOutcome.fault m => Except.error (PyErr.valueError ("Request failed: " ++ m))

/-- The remote API as an oracle: the response outcome of a POST to an
endpoint with a JSON body, of a PUT, and of a GET with the optional
`limit`, `offset` and `order_by` query parameters (in that order;
`Option.none` means the parameter is omitted). -/
structure Remote where
  post : String → PyVal → HttpOutcome
  put : String → PyVal → HttpOutcome
  getJson : String → Option Int → Option Int → Option String → HttpOutcome

/-- The bare search request body: the criteria list posted directly
(`self.post(endpoint, criteria)`). -/
def bareBody (criteria : List (List (String × PyVal))) : PyVal :=
  PyVal.list (criteria.map PyVal.dict)

/-- The wrapped search request body `criteria: [...]`
(`self.post(endpoint, criteria=criteria)` shape). -/
def wrappedBody (criteria : List (List (String × PyVal))) : PyVal :=
  PyVal.dict [("criteria", bareBody criteria)]

/-- Python iteration over a JSON value (`for it in batch`): a list
yields its items, a dict its keys, a string its characters; other
values raise `TypeError`. -/
def pyIter : PyVal → Option (List PyVal)
  | PyVal.list items => Option.some items
  | PyVal.dict es => Option.some (es.map (fun kv => PyVal.str kv.1))
  | PyVal.str s => Option.some (s.data.map (fun c => PyVal.str (String.mk [c])))
  | _ => Option.none

/-- The three-tier search cascade shared verbatim by `search_invoices`
(bexio_client.py lines 259-274), `search_quotes` (lines 312-321) and
`search_timesheets` (lines 693-704), parameterised by the search and
list endpoints: POST the bare criteria; on `ValueError` POST the
wrapped criteria; on a second `ValueError` fetch a batch from the list
endpoint with `limit=fallback_limit` and filter it client-side.  A
non-`ValueError` exception propagates (the `except ValueError` clauses
do not catch it), as does a failure of the tier-3 list fetch. -/
def search_with_fallback (env : Remote) (searchEndpoint listEndpoint : String)
    (criteria : List (List (String × PyVal))) (fallbackLimit : Int) :
    Except PyErr PyVal :=
  match requestResult (env.post searchEndpoint (bareBody criteria)) with
  | Except.ok r => Except.ok r
  | Except.error (PyErr.otherError m) => Except.error (PyErr.otherError m)
  | Except.error (PyErr.valueError _) =>
    match requestResult (env.post searchEndpoint (wrappedBody criteria)) with
    | Except.ok r => Except.ok r
    | Except.error (PyErr.otherError m) => Except.error (PyErr.otherError m)
    | Except.error (PyErr.valueError _) =>
      match requestResult (env.getJson listEndpoint (Option.some fallbackLimit)
          Option.none Option.none) with
      | Except.error e => Except.error e
      | Except.ok batch =>
        match pyIter batch with
        | Option.none => Except.error (PyErr.otherError "TypeError: object is not iterable")
        | Option.some items => (filterByCriteria items criteria).map PyVal.list

/-- `BexioClient.search_invoices` (bexio_client.py lines 259-274). -/
def search_invoices (env : Remote) (criteria : List (List (String × PyVal)))
    (fallbackLimit : Int := 200) : Except PyErr PyVal :=
  search_with_fallback env "/2.0/kb_invoice/search" "/2.0/kb_invoice" criteria fallbackLimit

/-- `BexioClient.search_quotes` (bexio_client.py lines 312-321). -/
def search_quotes (env : Remote) (criteria : List (List (String × PyVal)))
    (fallbackLimit : Int := 200) : Except PyErr PyVal :=
  search_with_fallback env "/2.0/kb_offer/search" "/2.0/kb_offer" criteria fallbackLimit

/-- `BexioClient.search_timesheets` (bexio_client.py lines 693-704). -/
def search_timesheets (env : Remote) (criteria : List (List (String × PyVal)))
    (fallbackLimit : Int := 200) : Except PyErr PyVal :=
  search_with_fallback env "/2.0/timesheet/search" "/2.0/timesheet" criteria fallbackLimit

/-- `BexioClient.search_contacts` (bexio_client.py lines 210-212):
single POST of the bare criteria, no fallback. -/
def search_contacts (env : Remote) (criteria : List (List (String × PyVal))) :
    Except PyErr PyVal :=
  requestResult (env.post "/2.0/contact/search" (bareBody criteria))

/-- `BexioClient.search_orders` (bexio_client.py lines 359-361):
single POST of the wrapped criteria, no fallback. -/
def search_orders (env : Remote) (criteria : List (List (String × PyVal))) :
    Except PyErr PyVal :=
  requestResult (env.post "/2.0/kb_order/search" (wrappedBody criteria))

/-- `BexioClient.search_projects` (bexio_client.py lines 399-401):
single POST of the wrapped criteria, no fallback. -/
def search_projects (env : Remote) (criteria : List (List (String × PyVal))) :
    Except PyErr PyVal :=
  requestResult (env.post "/2.0/pr_project/search" (wrappedBody criteria))

/-- `BexioClient.search_items` (bexio_client.py lines 439-441):
single POST of the wrapped criteria, no fallback. -/
def search_items (env : Remote) (criteria : List (List (String × PyVal))) :
    Except PyErr PyVal :=
  requestResult (env.post "/2.0/article/search" (wrappedBody criteria))

/-- `BexioClient.search_accounts` (bexio_client.py lines 467-469):
single POST of the bare criteria, no fallback. -/
def search_accounts (env : Remote) (criteria : List (List (String × PyVal))) :
    Except PyErr PyVal :=
  requestResult (env.post "/2.0/accounts/search" (bareBody criteria))

/-- `BexioClient.search_calendar_years` (bexio_client.py lines
628-630): single POST of the bare criteria, no fallback. -/
def search_calendar_years (env : Remote) (criteria : List (List (String × PyVal))) :
    Except PyErr PyVal :=
  requestResult (env.post "/3.0/accounting/calendar_years/search" (bareBody criteria))

/-- `BexioClient.search_client_services` (bexio_client.py lines
743-745): single POST of the bare criteria, no fallback. -/
def search_client_services (env : Remote) (criteria : List (List (String × PyVal))) :
    Except PyErr PyVal :=
  requestResult (env.post "/2.0/client_service/search" (bareBody criteria))

/-- `BexioClient.search_business_activities` (bexio_client.py lines
774-776): single POST of the bare criteria, no fallback. -/
def search_business_activities (env : Remote) (criteria : List (List (String × PyVal))) :
    Except PyErr PyVal :=
  requestResult (env.post "/2.0/business_activity/search" (bareBody criteria))

/-- `BexioClient.get_contact` (bexio_client.py lines 178-180). -/
def get_contact (env : Remote) (contactId : Int) : Except PyErr PyVal :=
  requestResult (env.getJson ("/2.0/contact/" ++ toString contactId)
    Option.none Option.none Option.none)

/-- The email-alias normalisation shared by `create_contact` and
`update_contact` (bexio_client.py lines 194-196): when the payload has
`email` but no `mail`, the `email` entry is popped and its value
re-inserted under `mail`. -/
def normalizeEmail (d : List (String × PyVal)) : List (String × PyVal) :=
  if hasKey d "email" && !hasKey d "mail" then
    (d.filter (fun kv => kv.1 ≠ "email")) ++ [("mail", dictGet d "email")]
  else d

/-- Python `merged = dict(a); merged.update(b)` — the dict-merge
`a-then-b` (`a` entries first, values overridden by `b`, then
`b`-only entries), so that `b`'s value wins for every shared key. -/
def pyMergeDicts (a b : List (String × PyVal)) : List (String × PyVal) :=
  (a.map (fun kv => (kv.1, if hasKey b kv.1 then dictGet b kv.1 else kv.2)))
    ++ b.filter (fun kv => !hasKey a kv.1)

/-- `BexioClient.update_contact` (bexio_client.py lines 190-204):
normalise the email alias, then try fetching the existing contact and
PUTting the merge of the existing record with the caller's fields
(caller wins); any exception in that attempt — a failed fetch, a
non-dict fetch result, or a failed PUT of the merge — falls back to
PUTting only the caller-supplied fields, whose own failure
propagates. -/
def update_contact (env : Remote) (contactId : Int)
    (contactData : List (String × PyVal)) : Except PyErr PyVal :=
  let normalized := normalizeEmail contactData
  let attempt : Except PyErr PyVal :=
    match get_contact env contactId with
    | Except.error e => Except.error e
    | Except.ok (PyVal.dict existing) =>
        requestResult (env.put ("/2.0/contact/" ++ toString contactId)
          (PyVal.dict (pyMergeDicts existing normalized)))
    | Except.ok _ => Except.error (PyErr.otherError "TypeError: argument must be a mapping")
  match attempt with
  | Except.ok r => Except.ok r
  | Except.error _ =>
      requestResult (env.put ("/2.0/contact/" ++ toString contactId)
        (PyVal.dict normalized))

/-- The 422 error-enhancement gate in `call_tool` (server.py lines
1433-1442): with `str(e)` in hand, when the text contains `"422"` or
`"HTTP 422"` and a validator instance exists, return the enhanced
message; otherwise return `"Error: "` followed by the raw text. -/
def handle_tool_error (validatorPresent : Bool) (enhance : String → String)
    (errorMsg : String) : String :=
  if containsStr errorMsg "422" || containsStr errorMsg "HTTP 422" then
    if validatorPresent then enhance errorMsg
    else "Error: " ++ errorMsg
  else "Error: " ++ errorMsg

/-- Follows the claim's words for C7: a raw error "indicates an HTTP
422 validation status" when it is the transport's message for a
422-status failure, which `_request` renders with the prefix
`"Bexio API error - HTTP 422"`. -/
def indicatesHttp422 (msg : String) : Bool :=
  isPrefixB ("Bexio API error - HTTP 422").data msg.data

/-- Modelled from the spec: the repository's `field_validator.py`
(class `BexioFieldValidator`, invoked as
`auto_complete_fields(name, arguments)` in server.py line 1091) is
not among the provided sources.  Its STATIC-default tables are
reconstructed from the specification (AUTO_FILL_DEFAULT lists in the
server module header and the tool descriptions): per resource kind,
the fields auto-filled with a literal default when missing. -/
def static_defaults : String → List (String × PyVal)
  | "contact" => [("contact_type_id", PyVal.int 2), ("user_id", PyVal.int 1),
                  ("owner_id", PyVal.int 1)]
  | "invoice" => [("user_id", PyVal.int 1)]
  | "quote" => [("user_id", PyVal.int 1)]
  | "project" => [("user_id", PyVal.int 1), ("pr_state_id", PyVal.int 1),
                  ("pr_project_type_id", PyVal.int 1)]
  | "item" => [("user_id", PyVal.int 1), ("article_type_id", PyVal.int 1),
               ("currency_id", PyVal.int 1), ("is_stock", PyVal.bool false),
               ("delivery_price", PyVal.int 0)]
  | _ => []

/-- Modelled from the spec: the STATIC-fill step of the missing
`field_validator.py` completion engine for create operations (spec
section 4.1 step 2): each STATIC-default field absent from the payload
— absence meaning key absence, so caller-supplied falsy values count
as present — is inserted with its declared default; caller-supplied
entries are left untouched. -/
def auto_complete_create (kind : String) (payload : List (String × PyVal)) :
    List (String × PyVal) :=
  payload ++ (static_defaults kind).filter (fun kv => !hasKey payload kv.1)

/-- Modelled from the spec: the EXISTING-fill step of the missing
`field_validator.py` completion engine for update operations (spec
section 4.1 step 3): each required field absent from the payload is
copied from the fetched current record; caller-supplied values always
win; when the fetch failed, the payload is submitted as-is. -/
def auto_complete_update (required : List String)
    (existing : Except PyErr (List (String × PyVal)))
    (payload : List (String × PyVal)) : List (String × PyVal) :=
  match existing with
  | Except.error _ => payload
  | Except.ok ex =>
      payload ++ (required.filter (fun k => !hasKey payload k)).filterMap
        (fun k => if hasKey ex k then Option.some (k, dictGet ex k) else Option.none)

/-- Follows the claim wording of C2 verbatim: a condition is satisfied
for operator `"="` exactly when `str(actual) == str(expected)`, for
operator `"like"` exactly when the expected value is not `None` and
`str(expected).lower()` is a substring of `str(actual).lower()`, and
never for any other operator value — with the operator taken literally
from the condition, no normalisation. -/
def cond_satisfied_claim (item : PyVal) (cond : List (String × PyVal)) : Bool :=
  match dictGet cond "field", dictGet cond "criteria" with
  | PyVal.str f, PyVal.str op =>
      let actual := getPath item (splitDot f)
      let expected := dictGet cond "value"
      if op = "=" then pyStr actual == pyStr expected
      else if op = "like" then
        match expected with
        | PyVal.none => false
        | v => containsStr (lowerStr (pyStr actual)) (lowerStr (pyStr v))
      else false
  | _, _ => false

/-- The claim predicate of C2 as amended: identical to
`cond_satisfied_claim` except that the operator is compared after
lower-casing, matching the code's `.lower()` normalisation. -/
def cond_satisfied_lower (item : PyVal) (cond : List (String × PyVal)) : Bool :=
  match dictGet cond "field", dictGet cond "criteria" with
  | PyVal.str f, PyVal.str opRaw =>
      let actual := getPath item (splitDot f)
      let expected := dictGet cond "value"
      let op := lowerStr opRaw
      if op = "=" then pyStr actual == pyStr expected
      else if op = "like" then
        match expected with
        | PyVal.none => false
        | v => containsStr (lowerStr (pyStr actual)) (lowerStr (pyStr v))
      else false
  | _, _ => false

/-- A well-formed search condition as the claims presuppose: the
`field` is a non-empty dotted-path string and the `criteria` a
non-empty operator string. -/
def WFCond (cond : List (String × PyVal)) : Prop :=
  (∃ f, dictGet cond "field" = PyVal.str f ∧ f ≠ "") ∧
  (∃ s, dictGet cond "criteria" = PyVal.str s ∧ s ≠ "")

/-- The shape under which a condition can never make the filter raise:
its `criteria` is falsy (defaulted to `"="`) or a string, and its
`field` is falsy (condition fails closed) or a string. -/
def NoRaiseCond (cond : List (String × PyVal)) : Prop :=
  (pyTruthy (dictGet cond "criteria") = false ∨
    ∃ s, dictGet cond "criteria" = PyVal.str s) ∧
  (pyTruthy (dictGet cond "field") = false ∨
    ∃ s, dictGet cond "field" = PyVal.str s)

/-- A remote that echoes every POSTed body back as the successful JSON
response, exposing which request body a search method submits. -/
def env_echo : Remote where
  post := fun _ body => HttpOutcome.okJson body
  put := fun _ _ => HttpOutcome.fault "unused"
  getJson := fun _ _ _ _ => HttpOutcome.fault "unused"

/-- A remote on which every POST of a non-dict body (in particular
every bare criteria list) fails with a network fault, every POST of a
dict body (the wrapped criteria shape) succeeds with a one-record
response, and every GET fails with a network fault. -/
def env_dict_only : Remote where
  post := fun _ body =>
    match body with
    | PyVal.dict _ => HttpOutcome.okJson (PyVal.list [PyVal.dict [("id", PyVal.int 1)]])
    | _ => HttpOutcome.fault "Connection refused"
  put := fun _ _ => HttpOutcome.fault "unused"
  getJson := fun _ _ _ _ => HttpOutcome.fault "Connection refused"

/-- A remote whose search endpoint always reports a 422 validation
error and whose list endpoint returns a fixed two-record batch,
driving the cascade into its client-side tier. -/
def env_search_down : Remote where
  post := fun _ _ => HttpOutcome.statusError 422 "bad request" Option.none
  put := fun _ _ => HttpOutcome.fault "unused"
  getJson := fun _ _ _ _ => HttpOutcome.okJson (PyVal.list
    [PyVal.dict [("city", PyVal.str "Zurich")], PyVal.dict [("city", PyVal.str "Bern")]])

/-- A remote that returns the current contact record on GET and echoes
every PUT body back as the successful response. -/
def env_contact : Remote where
  post := fun _ _ => HttpOutcome.fault "unused"
  put := fun _ body => HttpOutcome.okJson body
  getJson := fun _ _ _ _ => HttpOutcome.okJson (PyVal.dict
    [("id", PyVal.int 7), ("name_1", PyVal.str "Old Name"),
     ("contact_type_id", PyVal.int 2), ("user_id", PyVal.int 1),
     ("owner_id", PyVal.int 1)])

theorem hasKey_append (a b : List (String × PyVal)) (k : String) :
    hasKey (a ++ b) k = (hasKey a k || hasKey b k) := by
  induction a with
  | nil => simp [hasKey]
  | cons kv rest ih =>
      obtain ⟨k', v⟩ := kv
      by_cases h : k' = k <;> simp [hasKey, h, ih]

theorem dictGet_append (a b : List (String × PyVal)) (k : String) :
    dictGet (a ++ b) k = if hasKey a k then dictGet a k else dictGet b k := by
  induction a with
  | nil => simp [dictGet, hasKey]
  | cons kv rest ih =>
      obtain ⟨k', v⟩ := kv
      by_cases h : k' = k <;> simp [dictGet, hasKey, h, ih]

theorem dictGet_eq_none_of_not_hasKey (es : List (String × PyVal)) (k : String)
    (h : hasKey es k = false) : dictGet es k = PyVal.none := by
  induction es with
  | nil => rfl
  | cons kv rest ih =>
      obtain ⟨k', v⟩ := kv
      simp [hasKey] at h
      simp [dictGet, h.1, ih h.2]

theorem hasKey_of_mem (es : List (String × PyVal)) (k : String) (d : PyVal)
    (h : (k, d) ∈ es) : hasKey es k = true := by
  induction es with
  | nil => cases h
  | cons kv rest ih =>
      rcases List.mem_cons.mp h with heq | hmem
      · cases heq; simp [hasKey]
      · obtain ⟨k', v⟩ := kv
        simp [hasKey, ih hmem]

theorem dictGet_eq_of_mem_of_nodup (es : List (String × PyVal)) (k : String) (d : PyVal)
    (hmem : (k, d) ∈ es) (hnd : (es.map Prod.fst).Nodup) : dictGet es k = d := by
  induction es with
  | nil => cases hmem
  | cons kv rest ih =>
      obtain ⟨k', v⟩ := kv
      simp only [List.map_cons, List.nodup_cons] at hnd
      rcases List.mem_cons.mp hmem with heq | hmem'
      · cases heq; simp [dictGet]
      · have hk : k' ≠ k := by
          intro h
          subst h
          exact hnd.1 (List.mem_map.mpr ⟨(k', d), hmem', rfl⟩)
        simp [dictGet, hk, ih hmem' hnd.2]

theorem dictGet_filter (p : String × PyVal → Bool) (q : String → Bool)
    (es : List (String × PyVal)) (k : String)
    (hpq : ∀ kv, p kv = q kv.1) (hq : q k = true) :
    dictGet (es.filter p) k = dictGet es k := by
  induction es with
  | nil => rfl
  | cons kv rest ih =>
      obtain ⟨k', v⟩ := kv
      by_cases hk : k' = k
      · subst hk
        have : p (k', v) = true := by rw [hpq]; exact hq
        simp [List.filter_cons, this, dictGet]
      · by_cases hp : p (k', v) = true
        · simp [List.filter_cons, hp, dictGet, hk, ih]
        · simp only [Bool.not_eq_true] at hp
          simp [List.filter_cons, hp, dictGet, hk, ih]

theorem dictGet_eq_of_uniform (es : List (String × PyVal)) (k : String) (d : PyVal)
    (h1 : ∀ kv ∈ es, kv.1 = k → kv.2 = d) (h2 : hasKey es k = true) :
    dictGet es k = d := by
  induction es with
  | nil => simp [hasKey] at h2
  | cons kv rest ih =>
      obtain ⟨k', v⟩ := kv
      by_cases hk : k' = k
      · subst hk
        have hv : v = d := h1 (k', v) (List.mem_cons_self _ _) rfl
        simp [dictGet, hv]
      · simp [hasKey, hk] at h2
        have h1' : ∀ kv ∈ rest, kv.1 = k → kv.2 = d :=
          fun kv hm => h1 kv (List.mem_cons_of_mem _ hm)
        simp [dictGet, hk, ih h1' h2]

theorem hasKey_map_fst (f : String × PyVal → PyVal) (a : List (String × PyVal))
    (k : String) :
    hasKey (a.map (fun kv => (kv.1, f kv))) k = hasKey a k := by
  induction a with
  | nil => rfl
  | cons kv rest ih =>
      obtain ⟨k', v⟩ := kv
      simp [hasKey, ih]

theorem dictGet_merge_map (a b : List (String × PyVal)) (k : String)
    (h : hasKey a k = true) :
    dictGet (a.map (fun kv => (kv.1, if hasKey b kv.1 then dictGet b kv.1 else kv.2))) k
      = if hasKey b k then dictGet b k else dictGet a k := by
  induction a with
  | nil => simp [hasKey] at h
  | cons kv rest ih =>
      obtain ⟨k', v⟩ := kv
      by_cases hk : k' = k
      · subst hk; simp [dictGet]
      · simp [hasKey, hk] at h
        simp [dictGet, hk, ih h]

theorem dictGet_pyMergeDicts (a b : List (String × PyVal)) (k : String) :
    dictGet (pyMergeDicts a b) k
      = if hasKey b k then dictGet b k else dictGet a k := by
  unfold pyMergeDicts
  rw [dictGet_append, hasKey_map_fst (fun kv => if hasKey b kv.1 then dictGet b kv.1 else kv.2)]
  by_cases ha : hasKey a k
  · rw [if_pos ha, dictGet_merge_map a b k ha]
  · simp only [Bool.not_eq_true] at ha
    rw [if_neg (by simp [ha])]
    rw [dictGet_filter (fun kv => !hasKey a kv.1) (fun s => !hasKey a s) b k
        (fun kv => rfl) (by simp [ha])]
    rw [dictGet_eq_none_of_not_hasKey a k ha]
    by_cases hb : hasKey b k
    · rw [if_pos hb]
    · simp only [Bool.not_eq_true] at hb
      rw [if_neg (by simp [hb]), dictGet_eq_none_of_not_hasKey b k hb]

theorem static_defaults_keys_nodup (kind : String) :
    ((static_defaults kind).map Prod.fst).Nodup := by
  unfold static_defaults
  split <;> decide

theorem strAppend_assoc (a b c : String) : a ++ b ++ c = a ++ (b ++ c) := by
  apply String.ext
  simp [String.data_append]

theorem isPrefixB_append (n h t : List Char) (hp : isPrefixB n h = true) :
    isPrefixB n (h ++ t) = true := by
  induction n generalizing h with
  | nil => rfl
  | cons c cs ih =>
      cases h with
      | nil => simp [isPrefixB] at hp
      | cons c' cs' =>
          simp [isPrefixB] at hp ⊢
          exact ⟨hp.1, ih cs' hp.2⟩

theorem isInfixB_nil_needle (t : List Char) : isInfixB [] t = true := by
  cases t with
  | nil => rfl
  | cons c cs => rfl

theorem isInfixB_append_right (n h t : List Char) (hi : isInfixB n h = true) :
    isInfixB n (h ++ t) = true := by
  induction h with
  | nil =>
      have hn : n = [] := by
        cases n with
        | nil => rfl
        | cons c cs => exact absurd hi (by simp [isInfixB, List.isEmpty])
      subst hn
      exact isInfixB_nil_needle ([] ++ t)
  | cons c cs ih =>
      have hstep : isInfixB n (c :: cs) = (isPrefixB n (c :: cs) || isInfixB n cs) := rfl
      rw [hstep, Bool.or_eq_true] at hi
      have hgoal : isInfixB n ((c :: cs) ++ t)
          = (isPrefixB n ((c :: cs) ++ t) || isInfixB n (cs ++ t)) := rfl
      rw [hgoal, Bool.or_eq_true]
      rcases hi with hp | hi'
      · exact Or.inl (isPrefixB_append n (c :: cs) t hp)
      · exact Or.inr (ih hi')

theorem isInfixB_append_left (n h t : List Char) (hi : isInfixB n t = true) :
    isInfixB n (h ++ t) = true := by
  induction h with
  | nil => simpa using hi
  | cons c cs ih =>
      simp only [List.cons_append, isInfixB, Bool.or_eq_true]
      exact Or.inr ih

theorem swf_tier1 (env : Remote) (se le : String)
    (c : List (List (String × PyVal))) (fl : Int) (r : PyVal)
    (h : requestResult (env.post se (bareBody c)) = Except.ok r) :
    search_with_fallback env se le c fl = Except.ok r := by
  unfold search_with_fallback
  rw [h]

theorem swf_tier1_other (env : Remote) (se le : String)
    (c : List (List (String × PyVal))) (fl : Int) (m : String)
    (h : requestResult (env.post se (bareBody c)) = Except.error (PyErr.otherError m)) :
    search_with_fallback env se le c fl = Except.error (PyErr.otherError m) := by
  unfold search_with_fallback
  rw [h]

theorem swf_tier2 (env : Remote) (se le : String)
    (c : List (List (String × PyVal))) (fl : Int) (m : String) (r : PyVal)
    (h1 : requestResult (env.post se (bareBody c)) = Except.error (PyErr.valueError m))
    (h2 : requestResult (env.post se (wrappedBody c)) = Except.ok r) :
    search_with_fallback env se le c fl = Except.ok r := by
  unfold search_with_fallback
  rw [h1, h2]

theorem swf_tier3 (env : Remote) (se le : String)
    (c : List (List (String × PyVal))) (fl : Int) (m m' : String) (items : List PyVal)
    (h1 : requestResult (env.post se (bareBody c)) = Except.error (PyErr.valueError m))
    (h2 : requestResult (env.post se (wrappedBody c)) = Except.error (PyErr.valueError m'))
    (h3 : requestResult (env.getJson le (Option.some fl) Option.none Option.none)
            = Except.ok (PyVal.list items)) :
    search_with_fallback env se le c fl = (filterByCriteria items c).map PyVal.list := by
  unfold search_with_fallback
  rw [h1, h2, h3]
  rfl

theorem getPath_none (ps : List String) : getPath PyVal.none ps = PyVal.none := by
  cases ps <;> rfl

theorem evalCond_eq_satisfied (item : PyVal) (cond : List (String × PyVal))
    (hwf : WFCond cond) :
    evalCond item cond = Except.ok (cond_satisfied_lower item cond) := by
  obtain ⟨⟨f, hf1, hf2⟩, ⟨s, hc1, hc2⟩⟩ := hwf
  have hts : pyTruthy (PyVal.str s) = true := by simp [pyTruthy, hc2]
  have htf : pyTruthy (PyVal.str f) ≠ false := by simp [pyTruthy, hf2]
  unfold evalCond cond_satisfied_lower evalOp
  rw [hf1, hc1, hts]
  simp only [if_true, htf, ite_false, if_neg htf]
  by_cases h1 : lowerStr s = "="
  · simp [h1]
  · by_cases h2 : lowerStr s = "like"
    · simp only [h1, if_false, h2, if_true, ite_true, ite_false]
      cases hv : dictGet cond "value" <;> simp [h1, h2, hv]
    · simp [h1, h2]

theorem evalOp_falsy (item field value : PyVal) (op : String)
    (h : pyTruthy field = false) : evalOp item field value op = Except.ok false := by
  unfold evalOp
  simp [h]

theorem evalOp_str_no_raise (item value : PyVal) (f op : String) :
    ∃ b, evalOp item (PyVal.str f) value op = Except.ok b := by
  unfold evalOp
  by_cases htf : pyTruthy (PyVal.str f) = false
  · simp [htf]
  · simp only [htf, if_false]
    by_cases h1 : op = "="
    · simp [h1]
    · by_cases h2 : op = "like"
      · simp only [h1, if_false, h2, if_true]
        cases value <;> simp
      · simp [h1, h2]

theorem evalCond_no_raise (item : PyVal) (cond : List (String × PyVal))
    (h : NoRaiseCond cond) : ∃ b, evalCond item cond = Except.ok b := by
  obtain ⟨hc, hf⟩ := h
  have hop : ∃ s, (if pyTruthy (dictGet cond "criteria") then dictGet cond "criteria"
      else PyVal.str "=") = PyVal.str s := by
    rcases hc with hc | ⟨s, hc⟩
    · exact ⟨"=", by rw [hc]; simp⟩
    · by_cases hts : pyTruthy (dictGet cond "criteria") = true
      · exact ⟨s, by rw [if_pos hts]; exact hc⟩
      · exact ⟨"=", by rw [if_neg hts]⟩
  obtain ⟨s, hop⟩ := hop
  unfold evalCond
  rw [hop]
  rcases hf with hf | ⟨f, hf⟩
  · exact ⟨false, evalOp_falsy item _ _ _ hf⟩
  · rw [hf]
    exact evalOp_str_no_raise item _ f (lowerStr s)

/-- C2, counterexample: the claim reads the operator literally, so a
condition with operator value `"LIKE"` would never be satisfied; the
code lower-cases the operator first, so the filter accepts the record.
The record-matches-iff-all-conditions-satisfied equivalence of the
claim therefore fails at this input: the code's `matches` returns
`True` while the claim's per-condition predicate is false. -/
theorem filter_operator_case_counterexample :
    matchesConds (PyVal.dict [("city", PyVal.str "Zurichshire")])
        [[("field", PyVal.str "city"), ("value", PyVal.str "Zurich"),
          ("criteria", PyVal.str "LIKE")]]
      = Except.ok true
    ∧ List.all [[("field", PyVal.str "city"), ("value", PyVal.str "Zurich"),
          ("criteria", PyVal.str "LIKE")]]
        (fun c => cond_satisfied_claim (PyVal.dict [("city", PyVal.str "Zurichshire")]) c)
      = false :=
  ⟨rfl, rfl⟩

/-- C2 (as amended): for every record and every list of well-formed
conditions, the filter's `matches` returns true iff every condition is
satisfied (logical AND), where a condition with lower-cased operator
`"="` is satisfied exactly when `str(actual) == str(expected)`
(string-cast equality), with lower-cased operator `"like"` exactly
when the expected value is not `None` and `str(expected).lower()` is a
substring of `str(actual).lower()`, and with any other operator never
— the amendment being that the operator is compared after the code's
`.lower()` normalisation rather than literally. -/
theorem filter_matches_iff_all_conditions (item : PyVal)
    (conds : List (List (String × PyVal))) (h : ∀ c ∈ conds, WFCond c) :
    matchesConds item conds
      = Except.ok (conds.all (fun c => cond_satisfied_lower item c)) := by
  induction conds with
  | nil => rfl
  | cons c rest ih =>
      have hc := h c (List.mem_cons_self _ _)
      have hrest := fun c' hm => h c' (List.mem_cons_of_mem _ hm)
      unfold matchesConds
      rw [evalCond_eq_satisfied item c hc]
      cases hsat : cond_satisfied_lower item c with
      | false => simp [hsat]
      | true => simp [hsat, ih hrest]

/-- Witness for the amended C2 at the claim's own examples: `"Zurich"`
like-matches city `"Zurichshire"`, does not like-match `"Bern"`, and
the unsupported operator `">"` never matches. -/
theorem filter_matches_iff_all_conditions_witness :
    matchesConds (PyVal.dict [("city", PyVal.str "Zurichshire")])
        [[("field", PyVal.str "city"), ("value", PyVal.str "Zurich"),
          ("criteria", PyVal.str "like")]] = Except.ok true
    ∧ matchesConds (PyVal.dict [("city", PyVal.str "Bern")])
        [[("field", PyVal.str "city"), ("value", PyVal.str "Zurich"),
          ("criteria", PyVal.str "like")]] = Except.ok false
    ∧ matchesConds (PyVal.dict [("city", PyVal.str "Zurichshire")])
        [[("field", PyVal.str "city"), ("value", PyVal.str "Zurich"),
          ("criteria", PyVal.str ">")]] = Except.ok false := by
  have hlike : ∀ c ∈ [[("field", PyVal.str "city"), ("value", PyVal.str "Zurich"),
      ("criteria", PyVal.str "like")]], WFCond c := by
    intro c hc
    rw [List.mem_singleton] at hc
    subst hc
    exact ⟨⟨"city", rfl, by decide⟩, ⟨"like", rfl, by decide⟩⟩
  have hgt : ∀ c ∈ [[("field", PyVal.str "city"), ("value", PyVal.str "Zurich"),
      ("criteria", PyVal.str ">")]], WFCond c := by
    intro c hc
    rw [List.mem_singleton] at hc
    subst hc
    exact ⟨⟨"city", rfl, by decide⟩, ⟨">", rfl, by decide⟩⟩
  exact ⟨(filter_matches_iff_all_conditions _ _ hlike).trans rfl,
    (filter_matches_iff_all_conditions _ _ hlike).trans rfl,
    (filter_matches_iff_all_conditions _ _ hgt).trans rfl⟩

/-- C8: dotted-path resolution is total and fails soft — resolving a
path against a non-mapping yields `None`, resolving a missing key
yields `None` (also through the remaining segments), and on every
record shape the filter's `matches` returns a boolean rather than
raising, for conditions whose field and criteria have the shapes the
claim presupposes (dotted-path strings, or falsy). -/
theorem dotted_path_total_and_missing_none :
    (∀ (v : PyVal) (p : String) (ps : List String),
        (∀ es, v ≠ PyVal.dict es) → getPath v (p :: ps) = PyVal.none)
    ∧ (∀ (es : List (String × PyVal)) (p : String) (ps : List String),
        hasKey es p = false → getPath (PyVal.dict es) (p :: ps) = PyVal.none)
    ∧ (∀ (item : PyVal) (conds : List (List (String × PyVal))),
        (∀ c ∈ conds, NoRaiseCond c) →
          ∃ b, matchesConds item conds = Except.ok b) := by
  refine ⟨?_, ?_, ?_⟩
  · intro v p ps hv
    cases v with
    | dict es => exact absurd rfl (hv es)
    | none => rfl
    | bool b => rfl
    | int n => rfl
    | str s => rfl
    | list items => rfl
  · intro es p ps h
    show getPath (dictGet es p) ps = PyVal.none
    rw [dictGet_eq_none_of_not_hasKey es p h, getPath_none]
  · intro item conds h
    induction conds with
    | nil => exact ⟨true, rfl⟩
    | cons c rest ih =>
        obtain ⟨b, hb⟩ := evalCond_no_raise item c (h c (List.mem_cons_self _ _))
        obtain ⟨b', hb'⟩ := ih (fun c' hm => h c' (List.mem_cons_of_mem _ hm))
        cases b with
        | false => exact ⟨false, by unfold matchesConds; rw [hb]⟩
        | true => exact ⟨b', by unfold matchesConds; rw [hb, hb']⟩

/-- Witness for C8: a missing nested key resolves to `None`, a
non-mapping intermediate resolves to `None`, and `matches` returns a
boolean on a record that is not even a mapping. -/
theorem dotted_path_total_and_missing_none_witness :
    getPath (PyVal.dict [("a", PyVal.int 1)]) ["b"] = PyVal.none
    ∧ getPath (PyVal.int 5) ["a", "b"] = PyVal.none
    ∧ ∃ b, matchesConds (PyVal.str "not a mapping")
        [[("field", PyVal.str "x.y"), ("criteria", PyVal.str "like")]]
        = Except.ok b := by
  refine ⟨?_, ?_, ?_⟩
  · exact dotted_path_total_and_missing_none.2.1 [("a", PyVal.int 1)] "b" [] (by decide)
  · exact dotted_path_total_and_missing_none.1 (PyVal.int 5) "a" ["b"]
      (fun es h => PyVal.noConfusion h)
  · exact dotted_path_total_and_missing_none.2.2 (PyVal.str "not a mapping") _
      (by
        intro c hc
        rw [List.mem_singleton] at hc
        subst hc
        exact ⟨Or.inr ⟨"like", rfl⟩, Or.inr ⟨"x.y", rfl⟩⟩)

/-- C10: a condition whose `criteria` key is absent or `None` is
evaluated with the `"="` operator; the operator string is lower-cased
before dispatch so `"LIKE"` behaves exactly as `"like"`; and a falsy
`field` (absent key, `None`, or the empty string) makes the condition
always-false — the record does not match — rather than raising. -/
theorem filter_condition_defaults_and_falsy_field :
    (∀ (item : PyVal) (cond : List (String × PyVal)),
        dictGet cond "criteria" = PyVal.none →
          evalCond item cond
            = evalOp item (dictGet cond "field") (dictGet cond "value") "=")
    ∧ (∀ (item fv vv : PyVal),
        evalCond item [("field", fv), ("value", vv), ("criteria", PyVal.str "LIKE")]
          = evalCond item [("field", fv), ("value", vv), ("criteria", PyVal.str "like")])
    ∧ (∀ (item : PyVal) (cond : List (String × PyVal)),
        (dictGet cond "criteria" = PyVal.none ∨
          ∃ s, dictGet cond "criteria" = PyVal.str s) →
        pyTruthy (dictGet cond "field") = false →
          evalCond item cond = Except.ok false)
    ∧ (∀ (item : PyVal) (cond : List (String × PyVal))
        (rest : List (List (String × PyVal))),
        (dictGet cond "criteria" = PyVal.none ∨
          ∃ s, dictGet cond "criteria" = PyVal.str s) →
        pyTruthy (dictGet cond "field") = false →
          matchesConds item (cond :: rest) = Except.ok false) := by
  have key : ∀ (item : PyVal) (cond : List (String × PyVal)),
      (dictGet cond "criteria" = PyVal.none ∨
        ∃ s, dictGet cond "criteria" = PyVal.str s) →
      pyTruthy (dictGet cond "field") = false →
        evalCond item cond = Except.ok false := by
    intro item cond hc hf
    have hop : ∃ s, (if pyTruthy (dictGet cond "criteria") then dictGet cond "criteria"
        else PyVal.str "=") = PyVal.str s := by
      rcases hc with hc | ⟨s, hc⟩
      · exact ⟨"=", by rw [hc]; simp [pyTruthy]⟩
      · by_cases hts : pyTruthy (dictGet cond "criteria") = true
        · exact ⟨s, by rw [if_pos hts]; exact hc⟩
        · exact ⟨"=", by rw [if_neg hts]⟩
    obtain ⟨s, hop⟩ := hop
    unfold evalCond
    rw [hop]
    exact evalOp_falsy item _ _ _ hf
  refine ⟨?_, ?_, ?_, ?_⟩
  · intro item cond hc
    unfold evalCond
    rw [hc, if_neg (by decide)]
    show evalOp item (dictGet cond "field") (dictGet cond "value") (lowerStr "=")
        = evalOp item (dictGet cond "field") (dictGet cond "value") "="
    rw [show lowerStr "=" = "=" from by decide]
  · intro item fv vv
    unfold evalCond
    have hlow : lowerStr "LIKE" = lowerStr "like" := by decide
    simp [dictGet, pyTruthy, hlow]
  · exact key
  · intro item cond rest hc hf
    unfold matchesConds
    rw [key item cond hc hf]

theorem errorDetail_split (s : Nat) (t : String) (b : Option PyVal) :
    ∃ rest, errorDetail s t b = "HTTP " ++ toString s ++ rest := by
  unfold errorDetail
  cases b with
  | none => exact ⟨": " ++ t, strAppend_assoc _ _ _⟩
  | some v =>
      cases v with
      | dict es =>
          simp only []
          by_cases hm : pyTruthy (pickedMessage es) = true
          · by_cases he : pyTruthy (dictGet es "errors") = true
            · refine ⟨": " ++ (pyStr (pickedMessage es)
                ++ (" | errors: " ++ pyStr (dictGet es "errors"))), ?_⟩
              rw [if_pos hm, if_pos he]
              simp [strAppend_assoc]
            · refine ⟨": " ++ pyStr (pickedMessage es), ?_⟩
              rw [if_pos hm, if_neg he]
              simp [strAppend_assoc]
          · by_cases he : pyTruthy (dictGet es "errors") = true
            · refine ⟨" | errors: " ++ pyStr (dictGet es "errors"), ?_⟩
              rw [if_neg hm, if_pos he]
              simp [strAppend_assoc]
            · refine ⟨"", ?_⟩
              rw [if_neg hm, if_neg he]
              simp
      | none => exact ⟨": " ++ t, strAppend_assoc _ _ _⟩
      | bool b' => exact ⟨": " ++ t, strAppend_assoc _ _ _⟩
      | int n => exact ⟨": " ++ t, strAppend_assoc _ _ _⟩
      | str s' => exact ⟨": " ++ t, strAppend_assoc _ _ _⟩
      | list items => exact ⟨": " ++ t, strAppend_assoc _ _ _⟩

theorem pickedMessage_of_truthy (es : List (String × PyVal))
    (h : pyTruthy (dictGet es "message") = true) :
    pickedMessage es = dictGet es "message" := by
  unfold pickedMessage
  simp only []
  rw [if_pos h, if_pos h]

/-- C9: every failure inside `_request` surfaces as a `ValueError` —
never any other exception type — with a non-2xx HTTP status producing
a message of the form `"Bexio API error - HTTP <status>..."` that,
for a parseable JSON dict body with a truthy message and truthy
field-errors array, appends both; and every other exception (network
fault, undecodable JSON on a 2xx) producing a message starting
`"Request failed: "`. -/
theorem request_errors_valueerror_shape :
    (∀ o : HttpOutcome, (∃ v, requestResult o = Except.ok v)
        ∨ ∃ m, requestResult o = Except.error (PyErr.valueError m))
    ∧ (∀ (s : Nat) (t : String) (b : Option PyVal), ∃ rest,
        requestResult (HttpOutcome.statusError s t b)
          = Except.error (PyErr.valueError
              ("Bexio API error - HTTP " ++ toString s ++ rest)))
    ∧ (∀ (s : Nat) (t : String) (es : List (String × PyVal)),
        pyTruthy (dictGet es "message") = true →
        pyTruthy (dictGet es "errors") = true →
        requestResult (HttpOutcome.statusError s t (Option.some (PyVal.dict es)))
          = Except.error (PyErr.valueError
              ("Bexio API error - HTTP " ++ toString s ++ ": "
                ++ pyStr (dictGet es "message") ++ " | errors: "
                ++ pyStr (dictGet es "errors"))))
    ∧ (∀ m, requestResult (HttpOutcome.fault m)
          = Except.error (PyErr.valueError ("Request failed: " ++ m)))
    ∧ (∀ m, requestResult (HttpOutcome.okBadJson m)
          = Except.error (PyErr.valueError ("Request failed: " ++ m))) := by
  refine ⟨?_, ?_, ?_, fun m => rfl, fun m => rfl⟩
  · intro o
    cases o with
    | okJson v => exact Or.inl ⟨v, rfl⟩
    | okBadJson m => exact Or.inr ⟨_, rfl⟩
    | statusError s t b => exact Or.inr ⟨_, rfl⟩
    | fault m => exact Or.inr ⟨_, rfl⟩
  · intro s t b
    obtain ⟨rest, hd⟩ := errorDetail_split s t b
    refine ⟨rest, ?_⟩
    unfold requestResult
    simp only []
    rw [hd]
    simp only [strAppend_assoc]
    rw [← strAppend_assoc "Bexio API error - " "HTTP ",
      show ("Bexio API error - " ++ "HTTP " : String) = "Bexio API error - HTTP " from by decide]
  · intro s t es hm he
    have hmsg : pyTruthy (pickedMessage es) = true := by
      rw [pickedMessage_of_truthy es hm]; exact hm
    unfold requestResult errorDetail
    simp only []
    rw [if_pos hmsg, if_pos he, pickedMessage_of_truthy es hm]
    simp only [strAppend_assoc]
    rw [← strAppend_assoc "Bexio API error - " "HTTP ",
      show ("Bexio API error - " ++ "HTTP " : String) = "Bexio API error - HTTP " from by decide]

/-- Witness for C9: concrete instances — a 422 with a structured body
gets the remote message and field errors appended; a network fault
becomes `"Request failed: ..."`. -/
theorem request_errors_valueerror_shape_witness :
    requestResult (HttpOutcome.statusError 422 "raw"
        (Option.some (PyVal.dict [("message", PyVal.str "contact_id is required"),
          ("errors", PyVal.list [PyVal.str "contact_id"])])))
      = Except.error (PyErr.valueError
          ("Bexio API error - HTTP 422: contact_id is required | errors: ['contact_id']"))
    ∧ requestResult (HttpOutcome.fault "Connection reset")
      = Except.error (PyErr.valueError "Request failed: Connection reset") := by
  constructor
  · have h := request_errors_valueerror_shape.2.2.1 422 "raw"
      [("message", PyVal.str "contact_id is required"),
        ("errors", PyVal.list [PyVal.str "contact_id"])] (by decide) (by decide)
    rw [h]
    rfl
  · exact request_errors_valueerror_shape.2.2.2.1 "Connection reset"

/-- C1: for every remote, criteria list and fallback limit, each of
`search_invoices`, `search_quotes` and `search_timesheets` attempts
its three tiers in order and stops at the first tier that returns
without error — a successful tier-1 (bare POST) response is returned
as-is even when empty, a tier-1 `ValueError` followed by a successful
tier-2 (wrapped POST) response returns that response, a `ValueError`
from both POST tiers makes the result exactly the client-side-filtered
subset of the batch fetched from the list endpoint with
`limit = fallback_limit`, and the fallback limit defaults to 200.
Results of different tiers never mix: each equation determines the
whole result from a single tier's response. -/
theorem search_cascade_three_tiers :
    ∀ (env : Remote) (criteria : List (List (String × PyVal))) (fl : Int),
      ((∀ r, requestResult (env.post "/2.0/kb_invoice/search" (bareBody criteria))
            = Except.ok r → search_invoices env criteria fl = Except.ok r)
      ∧ (∀ m r, requestResult (env.post "/2.0/kb_invoice/search" (bareBody criteria))
            = Except.error (PyErr.valueError m) →
          requestResult (env.post "/2.0/kb_invoice/search" (wrappedBody criteria))
            = Except.ok r →
          search_invoices env criteria fl = Except.ok r)
      ∧ (∀ m m' items, requestResult (env.post "/2.0/kb_invoice/search" (bareBody criteria))
            = Except.error (PyErr.valueError m) →
          requestResult (env.post "/2.0/kb_invoice/search" (wrappedBody criteria))
            = Except.error (PyErr.valueError m') →
          requestResult (env.getJson "/2.0/kb_invoice" (Option.some fl)
              Option.none Option.none) = Except.ok (PyVal.list items) →
          search_invoices env criteria fl
            = (filterByCriteria items criteria).map PyVal.list)
      ∧ search_invoices env criteria = search_invoices env criteria 200)
      ∧ ((∀ r, requestResult (env.post "/2.0/kb_offer/search" (bareBody criteria))
            = Except.ok r → search_quotes env criteria fl = Except.ok r)
      ∧ (∀ m r, requestResult (env.post "/2.0/kb_offer/search" (bareBody criteria))
            = Except.error (PyErr.valueError m) →
          requestResult (env.post "/2.0/kb_offer/search" (wrappedBody criteria))
            = Except.ok r →
          search_quotes env criteria fl = Except.ok r)
      ∧ (∀ m m' items, requestResult (env.post "/2.0/kb_offer/search" (bareBody criteria))
            = Except.error (PyErr.valueError m) →
          requestResult (env.post "/2.0/kb_offer/search" (wrappedBody criteria))
            = Except.error (PyErr.valueError m') →
          requestResult (env.getJson "/2.0/kb_offer" (Option.some fl)
              Option.none Option.none) = Except.ok (PyVal.list items) →
          search_quotes env criteria fl
            = (filterByCriteria items criteria).map PyVal.list)
      ∧ search_quotes env criteria = search_quotes env criteria 200)
      ∧ ((∀ r, requestResult (env.post "/2.0/timesheet/search" (bareBody criteria))
            = Except.ok r → search_timesheets env criteria fl = Except.ok r)
      ∧ (∀ m r, requestResult (env.post "/2.0/timesheet/search" (bareBody criteria))
            = Except.error (PyErr.valueError m) →
          requestResult (env.post "/2.0/timesheet/search" (wrappedBody criteria))
            = Except.ok r →
          search_timesheets env criteria fl = Except.ok r)
      ∧ (∀ m m' items, requestResult (env.post "/2.0/timesheet/search" (bareBody criteria))
            = Except.error (PyErr.valueError m) →
          requestResult (env.post "/2.0/timesheet/search" (wrappedBody criteria))
            = Except.error (PyErr.valueError m') →
          requestResult (env.getJson "/2.0/timesheet" (Option.some fl)
              Option.none Option.none) = Except.ok (PyVal.list items) →
          search_timesheets env criteria fl
            = (filterByCriteria items criteria).map PyVal.list)
      ∧ search_timesheets env criteria = search_timesheets env criteria 200) := by
  intro env criteria fl
  refine ⟨⟨?_, ?_, ?_, rfl⟩, ⟨?_, ?_, ?_, rfl⟩, ⟨?_, ?_, ?_, rfl⟩⟩
  · exact fun r h => swf_tier1 env _ _ criteria fl r h
  · exact fun m r h1 h2 => swf_tier2 env _ _ criteria fl m r h1 h2
  · exact fun m m' items h1 h2 h3 => swf_tier3 env _ _ criteria fl m m' items h1 h2 h3
  · exact fun r h => swf_tier1 env _ _ criteria fl r h
  · exact fun m r h1 h2 => swf_tier2 env _ _ criteria fl m r h1 h2
  · exact fun m m' items h1 h2 h3 => swf_tier3 env _ _ criteria fl m m' items h1 h2 h3
  · exact fun r h => swf_tier1 env _ _ criteria fl r h
  · exact fun m r h1 h2 => swf_tier2 env _ _ criteria fl m r h1 h2
  · exact fun m m' items h1 h2 h3 => swf_tier3 env _ _ criteria fl m m' items h1 h2 h3

/-- Witness for C1: on a remote that echoes POST bodies, tier 1 wins
and an empty-result shape would be returned as-is; on a remote where
only the wrapped shape succeeds, tier 2's response is returned; on a
remote whose search endpoint 422s, tier 3 returns exactly the
client-side-filtered subset of the fetched batch. -/
theorem search_cascade_three_tiers_witness :
    search_invoices env_echo [] 200 = Except.ok (bareBody [])
    ∧ search_quotes env_dict_only [] 200
        = Except.ok (PyVal.list [PyVal.dict [("id", PyVal.int 1)]])
    ∧ search_timesheets env_search_down
        [[("field", PyVal.str "city"), ("value", PyVal.str "Zurich"),
          ("criteria", PyVal.str "=")]] 200
        = Except.ok (PyVal.list [PyVal.dict [("city", PyVal.str "Zurich")]]) := by
  refine ⟨?_, ?_, ?_⟩
  · exact (search_cascade_three_tiers env_echo [] 200).1.1 (bareBody []) rfl
  · exact (search_cascade_three_tiers env_dict_only [] 200).2.1.2.1
      "Request failed: Connection refused" (PyVal.list [PyVal.dict [("id", PyVal.int 1)]])
      rfl rfl
  · exact ((search_cascade_three_tiers env_search_down _ 200).2.2.2.2.1
      "Bexio API error - HTTP 422: bad request" "Bexio API error - HTTP 422: bad request"
      [PyVal.dict [("city", PyVal.str "Zurich")], PyVal.dict [("city", PyVal.str "Bern")]]
      rfl rfl rfl).trans rfl

/-- C5, counterexample: on `env_dict_only` the tier-1 bare POST fails
with a network fault — not a remote validation error — and the list
endpoint faults too, yet `search_invoices` succeeds with exactly the
response that only the wrapped-payload retry can produce: the resolver
did retry with the wrapped payload after a transport fault.  (The
`except ValueError` clause catches it because `_request` wraps every
failure, transport faults included, as a `ValueError`.) -/
theorem wrapped_retry_after_transport_fault_counterexample :
    env_dict_only.post "/2.0/kb_invoice/search" (bareBody [])
      = HttpOutcome.fault "Connection refused"
    ∧ requestResult (env_dict_only.post "/2.0/kb_invoice/search" (bareBody []))
      = Except.error (PyErr.valueError "Request failed: Connection refused")
    ∧ requestResult (env_dict_only.getJson "/2.0/kb_invoice" (Option.some 200)
        Option.none Option.none)
      = Except.error (PyErr.valueError "Request failed: Connection refused")
    ∧ env_dict_only.post "/2.0/kb_invoice/search" (wrappedBody [])
      = HttpOutcome.okJson (PyVal.list [PyVal.dict [("id", PyVal.int 1)]])
    ∧ search_invoices env_dict_only [] 200
      = Except.ok (PyVal.list [PyVal.dict [("id", PyVal.int 1)]]) :=
  ⟨rfl, rfl, rfl, rfl, rfl⟩

/-- C5 (as amended): tier 2 — the wrapped-payload retry — is attempted
on every tier-1 failure that surfaces as a `ValueError`; since the
transport wraps every failure, network/transport faults included, as a
`ValueError`, a tier-1 transport fault does trigger the wrapped retry
(in `search_invoices` and `search_timesheets` alike). -/
theorem wrapped_retry_on_any_valueerror :
    ∀ (env : Remote) (criteria : List (List (String × PyVal))) (fl : Int),
      (∀ msg, requestResult (HttpOutcome.fault msg)
          = Except.error (PyErr.valueError ("Request failed: " ++ msg)))
      ∧ (∀ msg r, env.post "/2.0/kb_invoice/search" (bareBody criteria)
            = HttpOutcome.fault msg →
          requestResult (env.post "/2.0/kb_invoice/search" (wrappedBody criteria))
            = Except.ok r →
          search_invoices env criteria fl = Except.ok r)
      ∧ (∀ m r, requestResult (env.post "/2.0/kb_invoice/search" (bareBody criteria))
            = Except.error (PyErr.valueError m) →
          requestResult (env.post "/2.0/kb_invoice/search" (wrappedBody criteria))
            = Except.ok r →
          search_invoices env criteria fl = Except.ok r)
      ∧ (∀ msg r, env.post "/2.0/timesheet/search" (bareBody criteria)
            = HttpOutcome.fault msg →
          requestResult (env.post "/2.0/timesheet/search" (wrappedBody criteria))
            = Except.ok r →
          search_timesheets env criteria fl = Except.ok r) := by
  intro env criteria fl
  refine ⟨fun msg => rfl, ?_, ?_, ?_⟩
  · intro msg r h1 h2
    exact swf_tier2 env _ _ criteria fl ("Request failed: " ++ msg) r (by rw [h1]; rfl) h2
  · intro m r h1 h2
    exact swf_tier2 env _ _ criteria fl m r h1 h2
  · intro msg r h1 h2
    exact swf_tier2 env _ _ criteria fl ("Request failed: " ++ msg) r (by rw [h1]; rfl) h2

/-- Witness for the amended C5 on `env_dict_only`: the bare POST
faults at the transport level and the wrapped retry's response is
returned. -/
theorem wrapped_retry_on_any_valueerror_witness :
    search_invoices env_dict_only [] 200
      = Except.ok (PyVal.list [PyVal.dict [("id", PyVal.int 1)]])
    ∧ search_timesheets env_dict_only [] 200
      = Except.ok (PyVal.list [PyVal.dict [("id", PyVal.int 1)]]) :=
  ⟨(wrapped_retry_on_any_valueerror env_dict_only [] 200).2.1 "Connection refused"
      (PyVal.list [PyVal.dict [("id", PyVal.int 1)]]) rfl rfl,
    (wrapped_retry_on_any_valueerror env_dict_only [] 200).2.2.2 "Connection refused"
      (PyVal.list [PyVal.dict [("id", PyVal.int 1)]]) rfl rfl⟩

/-- C6, counterexample: `search_contacts` — a resource kind outside
the invoice/quote/timesheet trio — submits its criteria bare, not
wrapped as a criteria-keyed dict: on the echoing remote the response
is the bare list body, which is a different value from the wrapped
body the claim prescribes. -/
theorem stable_search_wrapping_counterexample :
    search_contacts env_echo
        [[("field", PyVal.str "name_1"), ("value", PyVal.str "A"),
          ("criteria", PyVal.str "like")]]
      = Except.ok (bareBody [[("field", PyVal.str "name_1"), ("value", PyVal.str "A"),
          ("criteria", PyVal.str "like")]])
    ∧ bareBody [[("field", PyVal.str "name_1"), ("value", PyVal.str "A"),
          ("criteria", PyVal.str "like")]]
      ≠ wrappedBody [[("field", PyVal.str "name_1"), ("value", PyVal.str "A"),
          ("criteria", PyVal.str "like")]] :=
  ⟨rfl, fun h => PyVal.noConfusion h⟩

/-- C6 (as amended): every search operation outside the trio is tier 1
only — its transport error propagates with no wrapped retry and no
list fallback — but the submitted body differs by kind: orders,
projects and items wrap their conditions as a criteria-keyed dict,
while contacts, accounts, calendar years, client services and business
activities submit the conditions bare.  The last conjunct contrasts
with the trio: on the remote where only dict-shaped bodies succeed,
`search_contacts` fails outright while `search_invoices` is rescued by
its wrapped retry. -/
theorem stable_search_tier1_only :
    ∀ (env : Remote) (criteria : List (List (String × PyVal))),
      ((∀ e, requestResult (env.post "/2.0/contact/search" (bareBody criteria))
            = Except.error e → search_contacts env criteria = Except.error e)
        ∧ search_contacts env_echo criteria = Except.ok (bareBody criteria))
      ∧ ((∀ e, requestResult (env.post "/2.0/accounts/search" (bareBody criteria))
            = Except.error e → search_accounts env criteria = Except.error e)
        ∧ search_accounts env_echo criteria = Except.ok (bareBody criteria))
      ∧ ((∀ e, requestResult (env.post "/3.0/accounting/calendar_years/search"
              (bareBody criteria))
            = Except.error e → search_calendar_years env criteria = Except.error e)
        ∧ search_calendar_years env_echo criteria = Except.ok (bareBody criteria))
      ∧ ((∀ e, requestResult (env.post "/2.0/client_service/search" (bareBody criteria))
            = Except.error e → search_client_services env criteria = Except.error e)
        ∧ search_client_services env_echo criteria = Except.ok (bareBody criteria))
      ∧ ((∀ e, requestResult (env.post "/2.0/business_activity/search" (bareBody criteria))
            = Except.error e → search_business_activities env criteria = Except.error e)
        ∧ search_business_activities env_echo criteria = Except.ok (bareBody criteria))
      ∧ ((∀ e, requestResult (env.post "/2.0/kb_order/search" (wrappedBody criteria))
            = Except.error e → search_orders env criteria = Except.error e)
        ∧ search_orders env_echo criteria = Except.ok (wrappedBody criteria))
      ∧ ((∀ e, requestResult (env.post "/2.0/pr_project/search" (wrappedBody criteria))
            = Except.error e → search_projects env criteria = Except.error e)
        ∧ search_projects env_echo criteria = Except.ok (wrappedBody criteria))
      ∧ ((∀ e, requestResult (env.post "/2.0/article/search" (wrappedBody criteria))
            = Except.error e → search_items env criteria = Except.error e)
        ∧ search_items env_echo criteria = Except.ok (wrappedBody criteria))
      ∧ search_contacts env_dict_only criteria
          = Except.error (PyErr.valueError "Request failed: Connection refused")
      ∧ search_invoices env_dict_only criteria
          = Except.ok (PyVal.list [PyVal.dict [("id", PyVal.int 1)]]) := by
  intro env criteria
  refine ⟨⟨fun e h => h, rfl⟩, ⟨fun e h => h, rfl⟩, ⟨fun e h => h, rfl⟩,
    ⟨fun e h => h, rfl⟩, ⟨fun e h => h, rfl⟩, ⟨fun e h => h, rfl⟩,
    ⟨fun e h => h, rfl⟩, ⟨fun e h => h, rfl⟩, rfl, ?_⟩
  exact swf_tier2 env_dict_only _ _ criteria 200 "Request failed: Connection refused"
    (PyVal.list [PyVal.dict [("id", PyVal.int 1)]]) rfl rfl

/-- Witness for the amended C6: a 422 from the remote propagates
unchanged out of `search_contacts` (no fallback), and the echoed
bodies show the bare/wrapped split. -/
theorem stable_search_tier1_only_witness :
    search_contacts env_search_down []
      = Except.error (PyErr.valueError "Bexio API error - HTTP 422: bad request")
    ∧ search_contacts env_echo [] = Except.ok (bareBody [])
    ∧ search_orders env_echo [] = Except.ok (wrappedBody []) :=
  ⟨(stable_search_tier1_only env_search_down []).1.1
      (PyErr.valueError "Bexio API error - HTTP 422: bad request") rfl,
    (stable_search_tier1_only env_echo []).1.2,
    (stable_search_tier1_only env_echo []).2.2.2.2.2.2.1.2⟩

theorem isPrefixB_iff (n h : List Char) : isPrefixB n h = true ↔ n <+: h := by
  induction n generalizing h with
  | nil => simp [isPrefixB]
  | cons c cs ih =>
      cases h with
      | nil => simp [isPrefixB]
      | cons c' cs' => simp [isPrefixB, List.cons_prefix_cons, ih]

theorem isInfixB_iff (n h : List Char) : isInfixB n h = true ↔ n <:+: h := by
  induction h with
  | nil =>
      cases n with
      | nil => simp [isInfixB, List.isEmpty]
      | cons c cs => simp [isInfixB, List.isEmpty]
  | cons c cs ih =>
      have hstep : isInfixB n (c :: cs) = (isPrefixB n (c :: cs) || isInfixB n cs) := rfl
      rw [hstep]
      simp [isPrefixB_iff, ih, List.infix_cons_iff]

theorem containsStr_append_left (a b n : String) (h : containsStr b n = true) :
    containsStr (a ++ b) n = true := by
  unfold containsStr at h ⊢
  rw [String.data_append]
  exact isInfixB_append_left _ _ _ h

theorem containsStr_append_right (a b n : String) (h : containsStr a n = true) :
    containsStr (a ++ b) n = true := by
  unfold containsStr at h ⊢
  rw [String.data_append]
  exact isInfixB_append_right _ _ _ h

theorem contains_422_of_contains_HTTP422 (msg : String)
    (h : containsStr msg "HTTP 422" = true) : containsStr msg "422" = true := by
  unfold containsStr at h ⊢
  rw [isInfixB_iff] at h ⊢
  exact List.IsInfix.trans ((isInfixB_iff _ _).mp (by decide)) h

/-- C7, counterexample: the gate in `call_tool` is a substring test,
not an HTTP-status test.  The transport renders a network fault as
`"Request failed: error 4229"`, which does not indicate an HTTP 422
status, yet the enhancer is invoked on it because the text contains
`"422"`; and a non-422 error is not passed through unchanged — it
comes back prefixed with `"Error: "`. -/
theorem enhancer_gate_counterexample :
    requestResult (HttpOutcome.fault "error 4229")
      = Except.error (PyErr.valueError "Request failed: error 4229")
    ∧ indicatesHttp422 "Request failed: error 4229" = false
    ∧ handle_tool_error true (fun _ => "ENHANCED") "Request failed: error 4229"
      = "ENHANCED"
    ∧ handle_tool_error true (fun m => m) "Bexio API error - HTTP 400: bad"
      = "Error: Bexio API error - HTTP 400: bad" :=
  ⟨rfl, rfl, rfl, rfl⟩

/-- C7 (as amended): the enhancer is invoked exactly when the error
text contains the substring `"422"` (the `"HTTP 422"` disjunct is
redundant) and a validator instance exists — which covers every
genuine 422 transport message but also any other text containing
`"422"`; every other error is returned as the raw text prefixed with
`"Error: "`, so the raw text is preserved but not returned
unchanged. -/
theorem enhancer_gate_substring_422 :
    ∀ (validatorPresent : Bool) (enhance : String → String) (msg : String),
      (containsStr msg "422" = true → validatorPresent = true →
        handle_tool_error validatorPresent enhance msg = enhance msg)
      ∧ (containsStr msg "422" = false →
        handle_tool_error validatorPresent enhance msg = "Error: " ++ msg)
      ∧ (validatorPresent = false →
        handle_tool_error validatorPresent enhance msg = "Error: " ++ msg)
      ∧ (∀ (t : String) (b : Option PyVal), validatorPresent = true →
        handle_tool_error validatorPresent enhance
            ("Bexio API error - " ++ errorDetail 422 t b)
          = enhance ("Bexio API error - " ++ errorDetail 422 t b)) := by
  intro vp enhance msg
  refine ⟨?_, ?_, ?_, ?_⟩
  · intro h1 h2
    unfold handle_tool_error
    rw [h1, h2]
    simp
  · intro h1
    have h2 : containsStr msg "HTTP 422" = false := by
      by_contra hc
      rw [Bool.not_eq_false] at hc
      rw [contains_422_of_contains_HTTP422 msg hc] at h1
      cases h1
    unfold handle_tool_error
    rw [h1, h2]
    simp
  · intro h
    unfold handle_tool_error
    subst h
    by_cases hc : (containsStr msg "422" || containsStr msg "HTTP 422") = true
    · rw [if_pos hc]
      simp
    · rw [if_neg hc]
  · intro t b hvp
    have hcontains : containsStr ("Bexio API error - " ++ errorDetail 422 t b) "422"
        = true := by
      apply containsStr_append_left
      obtain ⟨rest, hrest⟩ := errorDetail_split 422 t b
      rw [hrest]
      apply containsStr_append_right
      decide
    unfold handle_tool_error
    rw [hcontains, hvp]
    simp

/-- Witness for the amended C7: a genuine 422 message is enhanced, a
non-422 transport failure is returned with the `"Error: "` prefix, and
without a validator instance even a 422 passes through prefixed. -/
theorem enhancer_gate_substring_422_witness :
    handle_tool_error true (fun m => "Validation hint | " ++ m)
        "Bexio API error - HTTP 422: field missing"
      = "Validation hint | Bexio API error - HTTP 422: field missing"
    ∧ handle_tool_error true (fun m => m) "Request failed: timeout"
      = "Error: Request failed: timeout"
    ∧ handle_tool_error false (fun m => m) "Bexio API error - HTTP 422: x"
      = "Error: Bexio API error - HTTP 422: x" := by
  refine ⟨?_, ?_, ?_⟩
  · exact (enhancer_gate_substring_422 true _ _).1 (by decide) rfl
  · exact (enhancer_gate_substring_422 true _ _).2.1 (by decide)
  · exact (enhancer_gate_substring_422 false _ _).2.2.1 rfl

/-- C3: for every kind and create payload, a STATIC-default field
absent from the payload is present in the completed payload with its
declared default, while a caller-supplied field — falsy values
included, since presence is key-presence — keeps the caller's value
unchanged.  (The completion engine lives in the repository's missing
`field_validator.py`; `auto_complete_create` and `static_defaults` are
modelled from the spec.) -/
theorem create_static_defaults_fill :
    ∀ (kind : String) (payload : List (String × PyVal)) (k : String),
      (hasKey payload k = true →
        dictGet (auto_complete_create kind payload) k = dictGet payload k)
      ∧ (∀ d, (k, d) ∈ static_defaults kind → hasKey payload k = false →
          hasKey (auto_complete_create kind payload) k = true
          ∧ dictGet (auto_complete_create kind payload) k = d) := by
  intro kind payload k
  constructor
  · intro h
    unfold auto_complete_create
    rw [dictGet_append, if_pos h]
  · intro d hmem hnk
    have hmemf : (k, d) ∈ (static_defaults kind).filter (fun kv => !hasKey payload kv.1) :=
      List.mem_filter.mpr ⟨hmem, by simp [hnk]⟩
    constructor
    · unfold auto_complete_create
      rw [hasKey_append]
      have hk : hasKey ((static_defaults kind).filter (fun kv => !hasKey payload kv.1)) k
          = true := hasKey_of_mem _ k d hmemf
      rw [hk, Bool.or_true]
    · unfold auto_complete_create
      rw [dictGet_append, if_neg (by simp [hnk])]
      have hnd : (((static_defaults kind).filter
            (fun kv => !hasKey payload kv.1)).map Prod.fst).Nodup :=
        (static_defaults_keys_nodup kind).sublist
          (List.Sublist.map Prod.fst (List.filter_sublist _))
      exact dictGet_eq_of_mem_of_nodup _ k d hmemf hnd

/-- Witness for C3: completing a contact-create payload that has only
`name_1` adds `contact_type_id=2`, `user_id=1`, `owner_id=1` and
leaves `name_1` unchanged; a caller-supplied falsy value
(`is_stock=false` on an item) is kept as-is. -/
theorem create_static_defaults_fill_witness :
    hasKey [("name_1", PyVal.str "ACME")] "contact_type_id" = false
    ∧ dictGet (auto_complete_create "contact" [("name_1", PyVal.str "ACME")])
        "contact_type_id" = PyVal.int 2
    ∧ dictGet (auto_complete_create "contact" [("name_1", PyVal.str "ACME")])
        "user_id" = PyVal.int 1
    ∧ dictGet (auto_complete_create "contact" [("name_1", PyVal.str "ACME")])
        "owner_id" = PyVal.int 1
    ∧ dictGet (auto_complete_create "contact" [("name_1", PyVal.str "ACME")])
        "name_1" = PyVal.str "ACME"
    ∧ dictGet (auto_complete_create "item" [("is_stock", PyVal.bool false)])
        "is_stock" = PyVal.bool false := by
  refine ⟨by decide, ?_, ?_, ?_, ?_, ?_⟩
  · exact ((create_static_defaults_fill "contact" _ "contact_type_id").2 (PyVal.int 2)
      (by simp [static_defaults]) (by decide)).2
  · exact ((create_static_defaults_fill "contact" _ "user_id").2 (PyVal.int 1)
      (by simp [static_defaults]) (by decide)).2
  · exact ((create_static_defaults_fill "contact" _ "owner_id").2 (PyVal.int 1)
      (by simp [static_defaults]) (by decide)).2
  · exact ((create_static_defaults_fill "contact" _ "name_1").1 (by decide)).trans rfl
  · exact ((create_static_defaults_fill "item" _ "is_stock").1 (by decide)).trans rfl

/-- C4: for `update_contact` (the in-repo update that merges with the
existing record) — when the existing record is fetched successfully,
the submitted merge takes the existing record's value for every field
the caller did not supply (so any required field missing from the
payload is filled from the current record) and the caller's value for
every field the caller did supply; when the PUT of that merge
succeeds its response is returned; when the fetch fails, the update
is submitted with only the caller-supplied fields, whose own outcome
(including a remote rejection) is surfaced as-is.  The final conjuncts
state the same contract for `auto_complete_update`, the update-side
completion step of the missing `field_validator.py` modelled from the
spec. -/
theorem update_merges_existing_caller_wins :
    ∀ (env : Remote) (contactId : Int) (contactData : List (String × PyVal)),
      (∀ ex, get_contact env contactId = Except.ok (PyVal.dict ex) →
        (∀ k, hasKey (normalizeEmail contactData) k = true →
          dictGet (pyMergeDicts ex (normalizeEmail contactData)) k
            = dictGet (normalizeEmail contactData) k)
        ∧ (∀ k, hasKey (normalizeEmail contactData) k = false →
          dictGet (pyMergeDicts ex (normalizeEmail contactData)) k = dictGet ex k)
        ∧ (∀ r, requestResult (env.put ("/2.0/contact/" ++ toString contactId)
              (PyVal.dict (pyMergeDicts ex (normalizeEmail contactData))))
            = Except.ok r →
          update_contact env contactId contactData = Except.ok r))
      ∧ (∀ e, get_contact env contactId = Except.error e →
          update_contact env contactId contactData
            = requestResult (env.put ("/2.0/contact/" ++ toString contactId)
                (PyVal.dict (normalizeEmail contactData))))
      ∧ (∀ (required : List String) (ex payload : List (String × PyVal)) (k : String),
          (hasKey payload k = true →
            dictGet (auto_complete_update required (Except.ok ex) payload) k
              = dictGet payload k)
          ∧ (k ∈ required → hasKey payload k = false → hasKey ex k = true →
            dictGet (auto_complete_update required (Except.ok ex) payload) k
              = dictGet ex k))
      ∧ (∀ (required : List String) (e : PyErr) (payload : List (String × PyVal)),
          auto_complete_update required (Except.error e) payload = payload) := by
  intro env contactId contactData
  refine ⟨?_, ?_, ?_, fun required e payload => rfl⟩
  · intro ex hget
    refine ⟨?_, ?_, ?_⟩
    · intro k hk
      rw [dictGet_pyMergeDicts, if_pos hk]
    · intro k hk
      rw [dictGet_pyMergeDicts, if_neg (by simp [hk])]
    · intro r hput
      unfold update_contact
      simp only []
      rw [hget]
      simp only []
      rw [hput]
  · intro e hget
    unfold update_contact
    simp only []
    rw [hget]
  · intro required ex payload k
    constructor
    · intro hk
      unfold auto_complete_update
      rw [dictGet_append, if_pos hk]
    · intro hreq hp hex
      unfold auto_complete_update
      rw [dictGet_append, if_neg (by simp [hp])]
      apply dictGet_eq_of_uniform
      · intro kv hkv hfst
        obtain ⟨a, ha, hfa⟩ := List.mem_filterMap.mp hkv
        by_cases hexa : hasKey ex a = true
        · rw [if_pos hexa] at hfa
          cases hfa
          cases hfst
          rfl
        · rw [if_neg hexa] at hfa
          cases hfa
      · refine hasKey_of_mem _ k (dictGet ex k) (List.mem_filterMap.mpr ⟨k, ?_, ?_⟩)
        · exact List.mem_filter.mpr ⟨hreq, by simp [hp]⟩
        · rw [if_pos hex]

/-- Witness for C4: updating contact 7 with only a new `name_1` merges
the fetched record — the caller's `name_1` wins, the untouched
`user_id` is copied from the existing record — and the merged PUT's
response is returned; on a remote whose GET faults, the update is
submitted with the caller's fields only and that PUT's outcome is
surfaced. -/
theorem update_merges_existing_caller_wins_witness :
    dictGet (pyMergeDicts
        [("id", PyVal.int 7), ("name_1", PyVal.str "Old Name"),
          ("contact_type_id", PyVal.int 2), ("user_id", PyVal.int 1),
          ("owner_id", PyVal.int 1)]
        (normalizeEmail [("name_1", PyVal.str "New Name")])) "name_1"
      = PyVal.str "New Name"
    ∧ dictGet (pyMergeDicts
        [("id", PyVal.int 7), ("name_1", PyVal.str "Old Name"),
          ("contact_type_id", PyVal.int 2), ("user_id", PyVal.int 1),
          ("owner_id", PyVal.int 1)]
        (normalizeEmail [("name_1", PyVal.str "New Name")])) "user_id"
      = PyVal.int 1
    ∧ update_contact env_echo 7 [("name_1", PyVal.str "New Name")]
      = requestResult (env_echo.put "/2.0/contact/7"
          (PyVal.dict (normalizeEmail [("name_1", PyVal.str "New Name")])))
    ∧ dictGet (auto_complete_update ["user_id"]
        (Except.ok [("user_id", PyVal.int 1)]) [("name_1", PyVal.str "New Name")])
        "user_id" = PyVal.int 1 := by
  refine ⟨?_, ?_, ?_, ?_⟩
  · exact (((update_merges_existing_caller_wins env_contact 7
        [("name_1", PyVal.str "New Name")]).1 _ rfl).1 "name_1" (by decide)).trans rfl
  · exact ((update_merges_existing_caller_wins env_contact 7
        [("name_1", PyVal.str "New Name")]).1 _ rfl).2.1 "user_id" (by decide)
  · exact (update_merges_existing_caller_wins env_echo 7
        [("name_1", PyVal.str "New Name")]).2.1
      (PyErr.valueError "Request failed: unused") rfl
  · exact ((update_merges_existing_caller_wins env_echo 0 []).2.2.1 ["user_id"]
        [("user_id", PyVal.int 1)] [("name_1", PyVal.str "New Name")] "user_id").2
      (by simp) (by decide) (by decide)

/-- Witness for C10: a condition without a `criteria` key runs as
`"="`; `"LIKE"` and `"like"` agree; a condition with no `field` key
evaluates to false rather than raising; and an empty-string `field`
makes the whole record fail to match. -/
theorem filter_condition_defaults_and_falsy_field_witness :
    evalCond (PyVal.dict [("x", PyVal.int 3)])
        [("field", PyVal.str "x"), ("value", PyVal.str "3")]
      = evalOp (PyVal.dict [("x", PyVal.int 3)])
          (dictGet [("field", PyVal.str "x"), ("value", PyVal.str "3")] "field")
          (dictGet [("field", PyVal.str "x"), ("value", PyVal.str "3")] "value") "="
    ∧ evalCond (PyVal.dict [("x", PyVal.int 3)])
        [("field", PyVal.str "x"), ("value", PyVal.str "3"),
          ("criteria", PyVal.str "LIKE")]
      = evalCond (PyVal.dict [("x", PyVal.int 3)])
        [("field", PyVal.str "x"), ("value", PyVal.str "3"),
          ("criteria", PyVal.str "like")]
    ∧ evalCond (PyVal.dict [("x", PyVal.int 3)]) [("value", PyVal.str "3")]
      = Except.ok false
    ∧ matchesConds (PyVal.dict [("x", PyVal.int 3)])
        [[("field", PyVal.str ""), ("criteria", PyVal.str "=")],
          [("field", PyVal.str "x")]]
      = Except.ok false := by
  refine ⟨?_, ?_, ?_, ?_⟩
  · exact filter_condition_defaults_and_falsy_field.1 _ _ rfl
  · exact filter_condition_defaults_and_falsy_field.2.1 _ _ _
  · exact filter_condition_defaults_and_falsy_field.2.2.1 _ _ (Or.inl rfl) (by decide)
  · exact filter_condition_defaults_and_falsy_field.2.2.2 _ _ _
      (Or.inr ⟨"=", rfl⟩) (by decide)
